import Mathlib

/-!
Shallow embedding of the grok-mcp server core:
  * `src/mcp_server.py` — JSON-RPC dispatcher (`handle_rpc`), batch entry
    (`rpc_entry`), and the process-spawning bridge (`run_grok_search`);
  * `src/scripts/grok_search.py` — response normalizer
    (`extract_message_text`, `extract_sources`, `normalize_source_entry`)
    and `safe_truncate`.

JSON values decoded by the Python `json.loads` are modelled by the inductive
`J`; Python `None` and JSON `null` coincide (as they do after decoding).
JSON numbers are modelled as integers (no claim depends on non-integral
numbers).  Python exceptions (an `AttributeError` from calling `.get` on a
non-dict) are modelled with `Except String`.  Calls into the Python
standard library `json` module (`json.loads`, `json.dumps`) are
parameters of the embedded functions (`loads : String → Option J`,
`dumps : J → String`), since their behaviour is not code of this
repository.
-/

/-- A decoded JSON / Python value. -/
inductive J where
  | null
  | bool (b : Bool)
  | num (n : Int)
  | str (s : String)
  | arr (xs : List J)
  | obj (kvs : List (String × J))

/-- First-match lookup in a Python dict (keys are unique in decoded JSON,
so first-match agrees with dict lookup). -/
def jLookup : List (String × J) → String → Option J
  | [], _ => none
  | (k, v) :: rest, key => if k = key then some v else jLookup rest key

/-- Python `d.get(key, default)` on a dict. -/
def pyGetD (kvs : List (String × J)) (k : String) (d : J) : J :=
  (jLookup kvs k).getD d

/-- Python `d.get(key)` on a dict (absent key gives `None`). -/
def pyGet (kvs : List (String × J)) (k : String) : J :=
  pyGetD kvs k J.null

/-- Python truthiness of a decoded JSON value. -/
def truthy : J → Bool
  | J.null => false
  | J.bool b => b
  | J.num n => n != 0
  | J.str s => s ≠ ""
  | J.arr xs => !xs.isEmpty
  | J.obj kvs => !kvs.isEmpty

/-- Python `a or b`. -/
def pyOr (a b : J) : J := if truthy a then a else b

/-- Python `v.get(key, default)` where `v` may not be a dict: raises
`AttributeError` unless `v` is a dict. -/
def pyMemberD (v : J) (k : String) (d : J) : Except String J :=
  match v with
  | J.obj kvs => .ok (pyGetD kvs k d)
  | _ => .error "AttributeError"

/-- Python `v.get(key)` where `v` may not be a dict. -/
def pyMember (v : J) (k : String) : Except String J :=
  pyMemberD v k J.null

/-- Python `type(v).__name__` for a decoded JSON value. -/
def pyTypeName : J → String
  | J.null => "NoneType"
  | J.bool _ => "bool"
  | J.num _ => "int"
  | J.str _ => "str"
  | J.arr _ => "list"
  | J.obj _ => "dict"

mutual

/-- Python `repr` of a decoded JSON value (used by f-string interpolation
of non-string values; nested string escaping is not needed by any claim). -/
def pyRepr : J → String
  | J.null => "None"
  | J.bool true => "True"
  | J.bool false => "False"
  | J.num n => toString n
  | J.str s => "\x27" ++ s ++ "\x27"
  | J.arr xs => "[" ++ pyReprList xs ++ "]"
  | J.obj kvs => "\x7b" ++ pyReprObj kvs ++ "\x7d"

/-- Comma-separated `repr` of list elements. -/
def pyReprList : List J → String
  | [] => ""
  | [x] => pyRepr x
  | x :: xs => pyRepr x ++ ", " ++ pyReprList xs

/-- Comma-separated `repr` of dict entries. -/
def pyReprObj : List (String × J) → String
  | [] => ""
  | [(k, v)] => "\x27" ++ k ++ "\x27: " ++ pyRepr v
  | (k, v) :: xs => "\x27" ++ k ++ "\x27: " ++ pyRepr v ++ ", " ++ pyReprObj xs

end

/-- Python `str(v)` as used in an f-string. -/
def pyStr (v : J) : String :=
  match v with
  | J.str s => s
  | _ => pyRepr v

/-- Python `str.strip()` (strips whitespace at both ends; modelled over
the char list so that it evaluates in the kernel). -/
def pyStrip (s : String) : String :=
  String.mk (((s.data.dropWhile Char.isWhitespace).reverse.dropWhile
    Char.isWhitespace).reverse)

/-- Python `len` on a string (counts code points = Lean chars). -/
def pyLen (s : String) : Nat := s.data.length

/-- Python `s[:n]` for `0 ≤ n` (slices by code points). -/
def pySlice (s : String) (n : Nat) : String := String.mk (s.data.take n)

/-- `safe_truncate` — src/scripts/grok_search.py lines 390–393. -/
def safe_truncate (value : Option String) (limit : Nat) : String :=
  match value with
  | none => ""
  | some v =>
    if v = "" then ""
    else if pyLen v ≤ limit then v
    else pySlice v (limit - 3) ++ "..."

/-- The body of the loop in `extract_message_text` (grok_search.py lines
337–340): a part contributes its `text` when it is a dict with
`type == "text"` and a string `text`. -/
def keptText (part : J) : Option String :=
  match part with
  | J.obj pkvs =>
    match pyGet pkvs "type", pyGet pkvs "text" with
    | J.str "text", J.str t => some t
    | _, _ => none
  | _ => none

/-- `"\n".join(p.strip() for p in parts if p)` — grok_search.py line 341.
The `if p` filter tests the part before stripping. -/
def joinParts (parts : List String) : String :=
  String.intercalate "\n" ((parts.filter (fun p => p ≠ "")).map pyStrip)

/-- `extract_message_text` — src/scripts/grok_search.py lines 327–342.
`dumps` stands for `json.dumps(·, ensure_ascii=False)`.  An
`AttributeError` (`.get` on a non-dict `choices[0]`) is an `.error`. -/
def extract_message_text (dumps : J → String) (payload : List (String × J)) :
    Except String String :=
  match pyGet payload "choices" with
  | J.arr (c0 :: _) => do
    let message ← pyMemberD c0 "message" (J.obj [])
    match message with
    | J.obj mkvs =>
      match pyGet mkvs "content" with
      | J.str s => .ok (pyStrip s)
      | J.arr content => .ok (joinParts (content.filterMap keptText))
      | _ => .ok (dumps (J.obj payload))
    | _ => .ok (dumps (J.obj payload))
  | _ => .ok (dumps (J.obj payload))

/-- `normalize_source_entry` — src/scripts/grok_search.py lines 372–387.
`none` is Python `None` (entry dropped by the caller). -/
def normalize_source_entry (entry : J) : Option J :=
  match entry with
  | J.str s => some (J.obj [("url", J.str s)])
  | J.obj kvs =>
    let url := pyOr (pyGet kvs "url") (pyGet kvs "href")
    let title := pyOr (pyGet kvs "title") (pyGet kvs "name")
    let snippet := pyOr (pyGet kvs "snippet") (pyGet kvs "quote")
    let normalized :=
      (if truthy url then [("url", url)] else [])
      ++ (if truthy title then [("title", title)] else [])
      ++ (if truthy snippet then [("snippet", snippet)] else [])
    if normalized.isEmpty then none else some (J.obj normalized)
  | _ => none

/-- `value = message.get(key) or message.get("metadata", {}).get(key)` —
grok_search.py line 352.  Raises when the first operand is falsy and
`message["metadata"]` is present but not a dict. -/
def getOrMeta (mkvs : List (String × J)) (key : String) : Except String J :=
  let v := pyGet mkvs key
  if truthy v then .ok v
  else pyMember (pyGetD mkvs "metadata" (J.obj [])) key

/-- The `for key in ("citations", "sources", "references")` loop of
`extract_sources` (grok_search.py lines 351–355): the value of
`potential_sources` after the loop (`J.null` models the untouched `()`). -/
def messageSources (mkvs : List (String × J)) : Except String J :=
  match getOrMeta mkvs "citations" with
  | .error e => .error e
  | .ok v1 =>
    if truthy v1 then .ok v1 else
    match getOrMeta mkvs "sources" with
    | .error e => .error e
    | .ok v2 =>
      if truthy v2 then .ok v2 else
      match getOrMeta mkvs "references" with
      | .error e => .error e
      | .ok v3 => if truthy v3 then .ok v3 else .ok J.null

/-- The top-level fallback loop of `extract_sources` (grok_search.py lines
356–361). -/
def topLevelSources (payload : List (String × J)) : J :=
  let t1 := pyGet payload "sources"
  if truthy t1 then t1 else
  let t2 := pyGet payload "citations"
  if truthy t2 then t2 else
  let t3 := pyGet payload "references"
  if truthy t3 then t3 else J.null

/-- The normalization loop of `extract_sources` (grok_search.py lines
363–369): only a list is iterated, entries normalizing to `None` or `{}`
are dropped. -/
def normalizeCandidate : J → List J
  | J.arr items => items.filterMap normalize_source_entry
  | _ => []

/-- The message-level phase of `extract_sources` (grok_search.py lines
347–355): the value of `potential_sources` before the top-level fallback. -/
def choicesSources (payload : List (String × J)) : Except String J :=
  match pyGet payload "choices" with
  | J.arr (c0 :: _) =>
    (match pyMemberD c0 "message" (J.obj []) with
    | .error e => .error e
    | .ok (J.obj mkvs) => messageSources mkvs
    | .ok _ => .ok J.null)
  | _ => .ok J.null

/-- `extract_sources` — src/scripts/grok_search.py lines 345–369. -/
def extract_sources (payload : List (String × J)) : Except String (List J) :=
  match choicesSources payload with
  | .error e => .error e
  | .ok pot1 =>
    .ok (normalizeCandidate (if truthy pot1 then pot1 else topLevelSources payload))

/-- The `response.status_code >= 400` branch of `call_grok` —
src/scripts/grok_search.py lines 294–303.  `respText` is `response.text`. -/
def http_error_payload (status_code : Int) (respText : String) : J :=
  let detail := safe_truncate (some (pyStrip respText)) 400
  J.obj [("ok", J.bool false), ("error", J.str "http_error"),
    ("status_code", J.num status_code),
    ("detail", J.str (if detail ≠ "" then detail
                      else "HTTP " ++ toString status_code))]

/-- The `response.json()` failure branch of `call_grok` —
src/scripts/grok_search.py lines 305–314. -/
def invalid_json_payload (respText : String) : J :=
  J.obj [("ok", J.bool false), ("error", J.str "invalid_json_response"),
    ("detail", J.str (safe_truncate (some respText) 400))]

/-! ## src/mcp_server.py -/

/-- `timeout=120` passed to `subprocess.run` — mcp_server.py line 56. -/
def subprocessTimeoutSeconds : Nat := 120

/-- Outcome of `subprocess.run(cmd, capture_output=True, text=True, ...,
timeout=120)` at mcp_server.py lines 49–68: either one of the three caught
exception classes (each carrying `str(exc)`), or a completed process with
its decoded stdout, stderr and return code.  `timeoutExpired` models
`subprocess.TimeoutExpired`, raised when the child exceeds the
`subprocessTimeoutSeconds` bound. -/
inductive SpawnResult where
  | timeoutExpired (msg : String)
  | fileNotFound (msg : String)
  | otherError (msg : String)
  | completed (stdout stderr : String) (returncode : Int)

/-- `run_grok_search` — src/mcp_server.py lines 42–90.  `loads` stands for
`json.loads` (`none` = `json.JSONDecodeError`); `scriptPath` is
`str(GROK_SCRIPT_PATH)`; the spawn outcome is the input.  Returns whatever
`json.loads(stdout)` produced — not necessarily a dict. -/
def run_grok_search (loads : String → Option J) (scriptPath : String)
    (spawn : SpawnResult) : J :=
  match spawn with
  | .timeoutExpired m =>
    J.obj [("ok", J.bool false), ("error", J.str "timeout"),
      ("detail", J.str m)]
  | .fileNotFound m =>
    J.obj [("ok", J.bool false), ("error", J.str "script_not_found"),
      ("detail", J.str m), ("path", J.str scriptPath)]
  | .otherError m =>
    J.obj [("ok", J.bool false), ("error", J.str "subprocess_error"),
      ("detail", J.str m)]
  | .completed so se rc =>
    let stdout := pyStrip so
    let stderr := pyStrip se
    if stdout ≠ "" then
      match loads stdout with
      | some j => j
      | none =>
        J.obj [("ok", J.bool false), ("error", J.str "non_json_output"),
          ("raw_stdout", J.str stdout), ("raw_stderr", J.str stderr),
          ("returncode", J.num rc)]
    else
      J.obj [("ok", J.bool false), ("error", J.str "empty_output"),
        ("returncode", J.num rc), ("raw_stderr", J.str stderr)]

/-- A JSON-RPC response as built by `jsonrpc_result` / `jsonrpc_error`
(mcp_server.py lines 33–40), before `jsonify` wraps it for the transport. -/
inductive Resp where
  | result (id : J) (result : J)
  | rpcError (id : J) (code : Int) (message : String) (data : Option J)

/-- `SERVER_INFO` — mcp_server.py line 15. -/
def SERVER_INFO : J :=
  J.obj [("name", J.str "grok-search-mcp"), ("version", J.str "0.1.0")]

/-- `TOOL_DEF` — mcp_server.py lines 19–31. -/
def TOOL_DEF : J :=
  J.obj [("name", J.str "grok_search"),
    ("description",
      J.str "Search the web or X using Grok\x27s real-time search capability."),
    ("inputSchema", J.obj [
      ("type", J.str "object"),
      ("properties", J.obj [
        ("query", J.obj [("type", J.str "string"),
          ("description", J.str "Search query / research task.")])]),
      ("required", J.arr [J.str "query"]),
      ("additionalProperties", J.bool false)])]

/-- The envelope check of `handle_rpc` (mcp_server.py line 99):
`msg.get("jsonrpc") != "2.0" or not isinstance(method, str) or not method`
(negated). -/
def validEnvelope (msg : List (String × J)) : Bool :=
  match pyGet msg "jsonrpc", pyGetD msg "method" (J.str "") with
  | J.str "2.0", J.str m => m ≠ ""
  | _, _ => false

/-- The `initialize` result object — mcp_server.py lines 106–112. -/
def initResult (pv : J) : J :=
  J.obj [("protocolVersion", pv), ("serverInfo", SERVER_INFO),
    ("capabilities", J.obj [("tools", J.obj [])])]

/-- `name != TOOL_NAME` (mcp_server.py line 144), negated: Python equality
of a decoded value with the string `"grok_search"`. -/
def isToolName : J → Bool
  | J.str s => s = "grok_search"
  | _ => false

/-- The `tools/call` tail after `arguments` has been decoded —
mcp_server.py lines 133–165.  `run` is `run_grok_search` abstracted over
its spawn; the `.get` on its non-dict return value raises. -/
def toolsCallWithArgs (dumps : J → String) (run : String → J)
    (_id name args0 : J) : Except String Resp :=
  let args := match args0 with | J.null => J.obj [] | a => a
  match args with
  | J.obj akvs =>
    if !isToolName name then
      .ok (Resp.rpcError _id (-32602) ("Unknown tool: " ++ pyStr name) none)
    else
      match pyGet akvs "query" with
      | J.str q =>
        if pyStrip q = "" then
          .ok (Resp.rpcError _id (-32602)
            "Missing required argument: query" none)
        else do
          let out := run (pyStrip q)
          let okF ← pyMemberD out "ok" (J.bool true)
          .ok (Resp.result _id (J.obj [
            ("content", J.arr [J.obj [("type", J.str "text"),
              ("text", J.str (dumps out))]]),
            ("isError", J.bool (!truthy okF))]))
      | _ =>
        .ok (Resp.rpcError _id (-32602)
          "Missing required argument: query" none)
  | other =>
    .ok (Resp.rpcError _id (-32602) "Invalid arguments: expected object."
      (some (J.obj [("arguments_type", J.str (pyTypeName other))])))

/-- `handle_rpc` — src/mcp_server.py lines 92–172.  `loads`/`dumps` stand
for `json.loads`/`json.dumps`; `run` is the bridge call
`run_grok_search`.  An uncaught Python exception is an `.error`. -/
def handleRpc (loads : String → Option J) (dumps : J → String)
    (run : String → J) (msg : List (String × J)) : Except String Resp :=
  let _id := pyGet msg "id"
  let params := pyOr (pyGet msg "params") (J.obj [])
  if !validEnvelope msg then
    .ok (Resp.rpcError _id (-32600) "Invalid Request" (some (J.obj msg)))
  else
    match pyGetD msg "method" (J.str "") with
    | J.str "initialize" => do
      let pv ← pyMember params "protocolVersion"
      .ok (Resp.result _id
        (initResult (pyOr pv (J.str "2024-11-05"))))
    | J.str "tools/list" =>
      .ok (Resp.result _id (J.obj [("tools", J.arr [TOOL_DEF])]))
    | J.str "tools/call" => do
      let name ← pyMember params "name"
      let args0 ← pyMember params "arguments"
      match args0 with
      | J.str s =>
        match loads s with
        | some v => toolsCallWithArgs dumps run _id name v
        | none =>
          .ok (Resp.rpcError _id (-32602)
            "Invalid arguments: string payload is not valid JSON."
            (some (J.obj [("arguments", J.str s)])))
      | v => toolsCallWithArgs dumps run _id name v
    | J.str "notifications/initialized" =>
      .ok (Resp.result _id (J.obj []))
    | m =>
      .ok (Resp.rpcError _id (-32601) ("Method not found: " ++ pyStr m) none)

/-- The batch branch of `rpc_entry` — src/mcp_server.py lines 186–196:
non-dict entries are skipped, every `handle_rpc` return value is appended
(`handle_rpc` never returns a tuple, so the `continue` guard is dead); an
exception raised by `handle_rpc` aborts the whole batch. -/
def rpc_entry_batch (loads : String → Option J) (dumps : J → String)
    (run : String → J) (payload : List J) : Except String (List Resp) :=
  payload.foldlM (fun acc item =>
    match item with
    | J.obj mkvs => do
      let r ← handleRpc loads dumps run mkvs
      pure (acc ++ [r])
    | _ => pure acc) []

/-- Canonical `tools/call` message with optional `arguments`, used to
state claims quantifying over the arguments value. -/
def mkToolsCall (_id name : J) (args : Option J) : List (String × J) :=
  [("jsonrpc", J.str "2.0"), ("id", _id), ("method", J.str "tools/call"),
   ("params", J.obj ([("name", name)] ++
     (match args with | some a => [("arguments", a)] | none => [])))]

/-- Canonical `initialize` message with given params object. -/
def mkInit (_id : J) (params : List (String × J)) : List (String × J) :=
  [("jsonrpc", J.str "2.0"), ("id", _id),
   ("method", J.str "initialize"), ("params", J.obj params)]



/-- First truthy value of a candidate list (`J.null` when none is). -/
def firstTruthy : List J → J
  | [] => J.null
  | v :: vs => if truthy v then v else firstTruthy vs

/-- A content part shaped `\x7b"type":"text","text":t\x7d`. -/
def mkTextPart (t : String) : J :=
  J.obj [("type", J.str "text"), ("text", J.str t)]

/-- A provider payload whose first choice carries a message with the given
`content` value. -/
def mkContentPayload (c : J) : List (String × J) :=
  [("choices", J.arr [J.obj [("message", J.obj [("content", c)])]])]

/-! ## Concrete instantiations used in closed statements

`loads0` and `loads1` agree with the real `json.loads` on every string
they are applied to below: `"[]"` decodes to the empty JSON array, the
text `\x7b"query": "x"\x7d` decodes to the corresponding object, and the
other probe strings are not valid JSON.  `dumps0` and `run0` are
arbitrary stand-ins; no closed statement below depends on their output. -/

def loads0 : String → Option J := fun s =>
  if s = "[]" then some (J.arr []) else none

def loads1 : String → Option J := fun s =>
  if s = "\x7b\"query\": \"x\"\x7d" then some (J.obj [("query", J.str "x")])
  else none

def dumps0 : J → String := fun _ => ""

def run0 : String → J := fun _ => J.obj [("ok", J.bool true)]

/-! ## Helper lemmas -/

/-- Reduction of the dispatcher on a canonical `tools/call` message whose
`arguments` is a string: the envelope and routing steps are definitional,
leaving the `json.loads` call. -/
theorem handleRpc_toolsCall_str (loads : String → Option J)
    (dumps : J → String) (run : String → J) (_id name : J) (s : String) :
    handleRpc loads dumps run (mkToolsCall _id name (some (J.str s)))
      = match loads s with
        | some v => toolsCallWithArgs dumps run _id name v
        | none =>
          .ok (Resp.rpcError _id (-32602)
            "Invalid arguments: string payload is not valid JSON."
            (some (J.obj [("arguments", J.str s)]))) := rfl

/-- Reduction of the dispatcher on a canonical `tools/call` message whose
`arguments` is a non-string value. -/
theorem handleRpc_toolsCall_obj (loads : String → Option J)
    (dumps : J → String) (run : String → J) (_id name : J)
    (o : List (String × J)) :
    handleRpc loads dumps run (mkToolsCall _id name (some (J.obj o)))
      = toolsCallWithArgs dumps run _id name (J.obj o) := rfl

/-- Reduction of the dispatcher on an accepted `tools/call` for the
registered tool: the bridge is invoked on the stripped query. -/
theorem handleRpc_query (loads : String → Option J) (dumps : J → String)
    (run : String → J) (_id : J) (q : String) (hq : pyStrip q ≠ "") :
    handleRpc loads dumps run
        (mkToolsCall _id (J.str "grok_search")
          (some (J.obj [("query", J.str q)])))
      = (pyMemberD (run (pyStrip q)) "ok" (J.bool true)).bind (fun okF =>
          .ok (Resp.result _id (J.obj [
            ("content", J.arr [J.obj [("type", J.str "text"),
              ("text", J.str (dumps (run (pyStrip q))))]]),
            ("isError", J.bool (!truthy okF))]))) := by
  have h0 : handleRpc loads dumps run
      (mkToolsCall _id (J.str "grok_search")
        (some (J.obj [("query", J.str q)])))
      = toolsCallWithArgs dumps run _id (J.str "grok_search")
          (J.obj [("query", J.str q)]) := rfl
  rw [h0]
  show (if pyStrip q = "" then _ else _) = _
  rw [if_neg hq]
  rfl

/-- Reduction of the dispatcher on a canonical `initialize` message with
a supplied `protocolVersion`. -/
theorem handleRpc_protocolVersion (loads : String → Option J)
    (dumps : J → String) (run : String → J) (_id pv : J) :
    handleRpc loads dumps run (mkInit _id [("protocolVersion", pv)])
      = .ok (Resp.result _id
          (initResult (pyOr pv (J.str "2024-11-05")))) := rfl

/-! ## Claims -/

/-- C1: the propagation policy fails on valid JSON stdout that is not an
object.  For the well-formed `tools/call` request
`(id=1, name="grok_search", arguments=\x7bquery:"x"\x7d)`, when the
spawned script prints `"[]"` (valid JSON, not an object),
`run_grok_search` returns the decoded empty list, and `handle_rpc` then
evaluates `out.get("ok", True)` on it, raising `AttributeError`: no
JSON-RPC response is produced and the exception escapes the dispatcher
boundary, where the claim requires a result response for every possible
stdout. -/
theorem c1_nonobject_stdout_raises :
    run_grok_search loads0 "PATH" (.completed "[]" "" 0) = J.arr []
    ∧ handleRpc loads0 dumps0
        (fun _ => run_grok_search loads0 "PATH" (.completed "[]" "" 0))
        (mkToolsCall (J.num 1) (J.str "grok_search")
          (some (J.obj [("query", J.str "x")])))
      = .error "AttributeError" := ⟨rfl, rfl⟩

/-- C2: a notification (no `id`) inside a batch does produce a response
entry.  `handle_rpc` never returns `None` (and the
`isinstance(resp, tuple)` guard in `rpc_entry` is dead code), so the
one-element batch holding only the notification
`\x7b"jsonrpc":"2.0","method":"notifications/initialized"\x7d` yields a
one-element response array (with `id` echoed as `null`) instead of the
empty array the claim requires. -/
theorem c2_notification_gets_entry :
    rpc_entry_batch loads0 dumps0 run0
      [J.obj [("jsonrpc", J.str "2.0"),
        ("method", J.str "notifications/initialized")]]
      = .ok [Resp.result J.null (J.obj [])]
    ∧ [Resp.result J.null (J.obj [])] ≠ ([] : List Resp) := ⟨rfl, by simp⟩

/-- C3: the normalizer is not total.  On the payload
`\x7b"choices":[1]\x7d` both `extract_message_text` and `extract_sources`
evaluate `choices[0].get(...)` on a non-dict and raise `AttributeError`;
on `\x7b"choices":[\x7b"message":\x7b"metadata":7\x7d\x7d]\x7d`,
`extract_sources` evaluates `message.get("metadata", \x7b\x7d).get(key)`
on the non-dict `7` and raises, where the claim requires both functions
to return on every JSON object. -/
theorem c3_normalizer_raises :
    extract_message_text dumps0 [("choices", J.arr [J.num 1])]
      = .error "AttributeError"
    ∧ extract_sources [("choices", J.arr [J.num 1])]
      = .error "AttributeError"
    ∧ extract_sources
        [("choices", J.arr [J.obj [("message",
          J.obj [("metadata", J.num 7)])]])]
      = .error "AttributeError" := ⟨rfl, rfl, rfl⟩

/-- C4 counterexample: with `message.sources = ["http://s"]`,
`message.citations` absent and `message.metadata.citations = ["http://m"]`,
the code returns the normalization of `metadata.citations`, not of
`message.sources` as the claim requires: the metadata fallback is
consulted per key, before the next message-level key. -/
theorem c4_metadata_beats_sources :
    extract_sources
      [("choices", J.arr [J.obj [("message", J.obj
        [("sources", J.arr [J.str "http://s"]),
         ("metadata", J.obj [("citations", J.arr [J.str "http://m"])])])]])]
      = .ok [J.obj [("url", J.str "http://m")]]
    ∧ [J.obj [("url", J.str "http://m")]]
      ≠ [J.obj [("url", J.str "http://s")]] := ⟨rfl, by simp⟩

/-- C4 amended: the search order interleaves the metadata fallback per
key — `message.citations`, `message.metadata.citations`,
`message.sources`, `message.metadata.sources`, `message.references`,
`message.metadata.references`, then the top-level keys `sources`,
`citations`, `references`; the first truthy value found wins (normalized
only when it is a list), with no merging.  Stated for any payload whose
first choice carries a dict message whose `metadata` entry is a dict or
absent — the shapes on which the code does not raise. -/
theorem c4_per_key_interleaving (mkvs top : List (String × J)) (rest : List J)
    (metakvs : List (String × J))
    (h : pyGetD mkvs "metadata" (J.obj []) = J.obj metakvs) :
    extract_sources
        (("choices", J.arr (J.obj [("message", J.obj mkvs)] :: rest)) :: top)
      = .ok (normalizeCandidate (firstTruthy
          [pyGet mkvs "citations", pyGet metakvs "citations",
           pyGet mkvs "sources", pyGet metakvs "sources",
           pyGet mkvs "references", pyGet metakvs "references",
           pyGet top "sources", pyGet top "citations",
           pyGet top "references"])) := by
  have hm : messageSources mkvs = .ok (firstTruthy
      [pyGet mkvs "citations", pyGet metakvs "citations",
       pyGet mkvs "sources", pyGet metakvs "sources",
       pyGet mkvs "references", pyGet metakvs "references"]) := by
    simp only [messageSources, getOrMeta, h, pyMember, pyMemberD,
      firstTruthy, pyGet]
    by_cases h1 : truthy (pyGetD mkvs "citations" J.null) <;>
    by_cases h2 : truthy (pyGetD metakvs "citations" J.null) <;>
    by_cases h3 : truthy (pyGetD mkvs "sources" J.null) <;>
    by_cases h4 : truthy (pyGetD metakvs "sources" J.null) <;>
    by_cases h5 : truthy (pyGetD mkvs "references" J.null) <;>
    by_cases h6 : truthy (pyGetD metakvs "references" J.null) <;>
    simp [h1, h2, h3, h4, h5, h6]
  have happ : ∀ l1 l2 : List J, firstTruthy (l1 ++ l2)
      = if truthy (firstTruthy l1) then firstTruthy l1
        else firstTruthy l2 := by
    intro l1 l2
    induction l1 with
    | nil => simp [firstTruthy, truthy]
    | cons x xs ih =>
      by_cases hx : truthy x <;> simp [firstTruthy, hx, ih]
  have htop : topLevelSources
      (("choices", J.arr (J.obj [("message", J.obj mkvs)] :: rest)) :: top)
      = firstTruthy [pyGet top "sources", pyGet top "citations",
          pyGet top "references"] := by
    simp only [topLevelSources, firstTruthy]
    rfl
  have hnine : firstTruthy
      [pyGet mkvs "citations", pyGet metakvs "citations",
       pyGet mkvs "sources", pyGet metakvs "sources",
       pyGet mkvs "references", pyGet metakvs "references",
       pyGet top "sources", pyGet top "citations", pyGet top "references"]
      = if truthy (firstTruthy
          [pyGet mkvs "citations", pyGet metakvs "citations",
           pyGet mkvs "sources", pyGet metakvs "sources",
           pyGet mkvs "references", pyGet metakvs "references"])
        then firstTruthy
          [pyGet mkvs "citations", pyGet metakvs "citations",
           pyGet mkvs "sources", pyGet metakvs "sources",
           pyGet mkvs "references", pyGet metakvs "references"]
        else firstTruthy [pyGet top "sources", pyGet top "citations",
          pyGet top "references"] := by
    exact happ
      [pyGet mkvs "citations", pyGet metakvs "citations",
       pyGet mkvs "sources", pyGet metakvs "sources",
       pyGet mkvs "references", pyGet metakvs "references"]
      [pyGet top "sources", pyGet top "citations", pyGet top "references"]
  have hcs : choicesSources
      (("choices", J.arr (J.obj [("message", J.obj mkvs)] :: rest)) :: top)
      = messageSources mkvs := rfl
  simp only [extract_sources, hcs, hm, htop, hnine]

/-- C4 witness: the amended order applied to the counterexample payload —
`metadata.citations` is the first truthy candidate and is the one
normalized. -/
theorem c4_per_key_interleaving_witness :
    pyGetD [("sources", J.arr [J.str "http://s"]),
        ("metadata", J.obj [("citations", J.arr [J.str "http://m"])])]
        "metadata" (J.obj [])
      = J.obj [("citations", J.arr [J.str "http://m"])]
    ∧ extract_sources
        [("choices", J.arr [J.obj [("message", J.obj
          [("sources", J.arr [J.str "http://s"]),
           ("metadata", J.obj [("citations", J.arr [J.str "http://m"])])])]])]
      = .ok (normalizeCandidate (firstTruthy
          [pyGet [("sources", J.arr [J.str "http://s"]),
              ("metadata", J.obj [("citations", J.arr [J.str "http://m"])])]
              "citations",
           pyGet [("citations", J.arr [J.str "http://m"])] "citations",
           pyGet [("sources", J.arr [J.str "http://s"]),
              ("metadata", J.obj [("citations", J.arr [J.str "http://m"])])]
              "sources",
           pyGet [("citations", J.arr [J.str "http://m"])] "sources",
           pyGet [("sources", J.arr [J.str "http://s"]),
              ("metadata", J.obj [("citations", J.arr [J.str "http://m"])])]
              "references",
           pyGet [("citations", J.arr [J.str "http://m"])] "references",
           pyGet ([] : List (String × J)) "sources",
           pyGet ([] : List (String × J)) "citations",
           pyGet ([] : List (String × J)) "references"])) :=
  ⟨rfl, c4_per_key_interleaving
    [("sources", J.arr [J.str "http://s"]),
     ("metadata", J.obj [("citations", J.arr [J.str "http://m"])])]
    [] [] [("citations", J.arr [J.str "http://m"])] rfl⟩

/-- C5 counterexample: an `initialize` request that supplies
`protocolVersion` as the empty string is answered with the fixed default
`"2024-11-05"`, not with the supplied value: the code uses
`params.get("protocolVersion") or "2024-11-05"`, and `or` discards every
falsy supplied value. -/
theorem c5_empty_version_not_echoed :
    handleRpc loads0 dumps0 run0
      (mkInit (J.num 1) [("protocolVersion", J.str "")])
      = .ok (Resp.result (J.num 1) (initResult (J.str "2024-11-05")))
    ∧ J.str "2024-11-05" ≠ J.str "" := ⟨rfl, by simp⟩

/-- C5 amended: the result echoes the caller-supplied `protocolVersion`
verbatim when that value is truthy; when the key is absent, or its value
is falsy (empty string, `null`, `false`, `0`, empty array or object), the
result carries the fixed default `"2024-11-05"`. -/
theorem c5_falsy_version_defaults (loads : String → Option J)
    (dumps : J → String) (run : String → J) (_id pv : J) :
    (truthy pv = true →
      handleRpc loads dumps run (mkInit _id [("protocolVersion", pv)])
        = .ok (Resp.result _id (initResult pv)))
    ∧ (truthy pv = false →
      handleRpc loads dumps run (mkInit _id [("protocolVersion", pv)])
        = .ok (Resp.result _id (initResult (J.str "2024-11-05"))))
    ∧ handleRpc loads dumps run (mkInit _id [])
        = .ok (Resp.result _id (initResult (J.str "2024-11-05"))) := by
  refine ⟨?_, ?_, rfl⟩ <;> intro h <;>
    rw [handleRpc_protocolVersion] <;> simp [pyOr, h]

/-- C5 witness: a truthy version string is echoed; the empty string gets
the default. -/
theorem c5_falsy_version_defaults_witness :
    truthy (J.str "v9") = true
    ∧ handleRpc loads0 dumps0 run0
        (mkInit (J.num 1) [("protocolVersion", J.str "v9")])
      = .ok (Resp.result (J.num 1) (initResult (J.str "v9")))
    ∧ truthy (J.str "") = false
    ∧ handleRpc loads0 dumps0 run0
        (mkInit (J.num 2) [("protocolVersion", J.str "")])
      = .ok (Resp.result (J.num 2) (initResult (J.str "2024-11-05"))) := by
  refine ⟨rfl, ?_, rfl, ?_⟩
  · exact (c5_falsy_version_defaults loads0 dumps0 run0 (J.num 1)
      (J.str "v9")).1 rfl
  · exact (c5_falsy_version_defaults loads0 dumps0 run0 (J.num 2)
      (J.str "")).2.1 rfl

/-- C6 counterexample: a whitespace-only text part is not dropped — the
`if p` filter runs before stripping — so
`[\x7btype:"text",text:"a"\x7d, \x7btype:"text",text:" "\x7d]` yields
`"a\n"` (a trailing empty segment), not `"a"` as the claim implies. -/
theorem c6_whitespace_part_leaves_blank_line :
    extract_message_text dumps0
      (mkContentPayload (J.arr [mkTextPart "a", mkTextPart " "]))
      = .ok "a\n"
    ∧ ("a\n" : String) ≠ "a" := ⟨rfl, by simp⟩

/-- C6 amended: for a list-shaped `content`, the code keeps the parts
shaped `\x7btype:"text", text: string\x7d`, drops the kept parts whose
raw text is the empty string (the filter runs before trimming), trims the
survivors and joins them with a newline — so a whitespace-only part
survives the filter and contributes an empty segment; the claim example
`[\x7btype:"text",text:"a"\x7d,\x7btype:"text",text:"b"\x7d]` still
yields `"a\nb"`. -/
theorem c6_pretrim_filter (dumps : J → String) (parts : List J) :
    extract_message_text dumps (mkContentPayload (J.arr parts))
      = .ok (String.intercalate "\n"
          (((parts.filterMap keptText).filter (fun p => p ≠ "")).map pyStrip))
    ∧ extract_message_text dumps
        (mkContentPayload (J.arr [mkTextPart "a", mkTextPart "b"]))
      = .ok "a\nb" := ⟨rfl, rfl⟩

/-- C7: argument normalization for `tools/call`.  Dispatching with
`arguments` given as a string that decodes to a JSON object behaves
identically to dispatching with that object; a string that is not valid
JSON yields the `-32602` invalid-arguments error; absent `arguments`
behaves identically to the empty object. -/
theorem c7_arguments_decode (loads : String → Option J) (dumps : J → String)
    (run : String → J) (_id name : J) (s1 s2 : String) (o : List (String × J))
    (h1 : loads s1 = some (J.obj o)) (h2 : loads s2 = none) :
    handleRpc loads dumps run (mkToolsCall _id name (some (J.str s1)))
      = handleRpc loads dumps run (mkToolsCall _id name (some (J.obj o)))
    ∧ handleRpc loads dumps run (mkToolsCall _id name (some (J.str s2)))
      = .ok (Resp.rpcError _id (-32602)
          "Invalid arguments: string payload is not valid JSON."
          (some (J.obj [("arguments", J.str s2)])))
    ∧ handleRpc loads dumps run (mkToolsCall _id name none)
      = handleRpc loads dumps run (mkToolsCall _id name (some (J.obj []))) := by
  refine ⟨?_, ?_, rfl⟩
  · rw [handleRpc_toolsCall_str, h1, handleRpc_toolsCall_obj]
  · rw [handleRpc_toolsCall_str, h2]

/-- C7 witness: the JSON text of `\x7b"query": "x"\x7d` dispatches
identically to the object it decodes to, and an invalid JSON string is
rejected with `-32602`. -/
theorem c7_arguments_decode_witness :
    loads1 "\x7b\"query\": \"x\"\x7d" = some (J.obj [("query", J.str "x")])
    ∧ loads1 "not json" = none
    ∧ handleRpc loads1 dumps0 run0
        (mkToolsCall (J.num 1) (J.str "grok_search")
          (some (J.str "\x7b\"query\": \"x\"\x7d")))
      = handleRpc loads1 dumps0 run0
        (mkToolsCall (J.num 1) (J.str "grok_search")
          (some (J.obj [("query", J.str "x")])))
    ∧ handleRpc loads1 dumps0 run0
        (mkToolsCall (J.num 1) (J.str "grok_search")
          (some (J.str "not json")))
      = .ok (Resp.rpcError (J.num 1) (-32602)
          "Invalid arguments: string payload is not valid JSON."
          (some (J.obj [("arguments", J.str "not json")]))) := by
  refine ⟨rfl, rfl, ?_, ?_⟩
  · exact (c7_arguments_decode loads1 dumps0 run0 (J.num 1)
      (J.str "grok_search") "\x7b\"query\": \"x\"\x7d" "not json"
      [("query", J.str "x")] rfl rfl).1
  · exact (c7_arguments_decode loads1 dumps0 run0 (J.num 1)
      (J.str "grok_search") "\x7b\"query\": \"x\"\x7d" "not json"
      [("query", J.str "x")] rfl rfl).2.1

/-- C8: the process-spawning bridge maps each failure mode to its
distinct error kind.  The subprocess bound is 120 seconds and exceeding
it (a `subprocess.TimeoutExpired`) yields `timeout`; a missing script
file yields `script_not_found` (with the script path); any other spawn
failure yields `subprocess_error`; empty (stripped) stdout yields
`empty_output` with the exit code; stdout that is not valid JSON yields
`non_json_output` preserving the stdout, the stderr and the exit code. -/
theorem c8_bridge_error_taxonomy (loads : String → Option J)
    (scriptPath m so se : String) (rc : Int) :
    subprocessTimeoutSeconds = 120
    ∧ run_grok_search loads scriptPath (.timeoutExpired m)
      = J.obj [("ok", J.bool false), ("error", J.str "timeout"),
          ("detail", J.str m)]
    ∧ run_grok_search loads scriptPath (.fileNotFound m)
      = J.obj [("ok", J.bool false), ("error", J.str "script_not_found"),
          ("detail", J.str m), ("path", J.str scriptPath)]
    ∧ run_grok_search loads scriptPath (.otherError m)
      = J.obj [("ok", J.bool false), ("error", J.str "subprocess_error"),
          ("detail", J.str m)]
    ∧ (pyStrip so = "" →
      run_grok_search loads scriptPath (.completed so se rc)
        = J.obj [("ok", J.bool false), ("error", J.str "empty_output"),
            ("returncode", J.num rc), ("raw_stderr", J.str (pyStrip se))])
    ∧ (pyStrip so ≠ "" → loads (pyStrip so) = none →
      run_grok_search loads scriptPath (.completed so se rc)
        = J.obj [("ok", J.bool false), ("error", J.str "non_json_output"),
            ("raw_stdout", J.str (pyStrip so)),
            ("raw_stderr", J.str (pyStrip se)),
            ("returncode", J.num rc)]) := by
  refine ⟨rfl, rfl, rfl, rfl, ?_, ?_⟩
  · intro h
    simp [run_grok_search, h]
  · intro h hl
    simp [run_grok_search, h, hl]

/-- C8 witness: whitespace-only stdout is classified `empty_output`, and
non-JSON stdout is classified `non_json_output`. -/
theorem c8_bridge_error_taxonomy_witness :
    pyStrip " " = ""
    ∧ run_grok_search loads0 "PATH" (.completed " " "boom" 2)
      = J.obj [("ok", J.bool false), ("error", J.str "empty_output"),
          ("returncode", J.num 2), ("raw_stderr", J.str (pyStrip "boom"))]
    ∧ pyStrip "oops" ≠ ""
    ∧ loads0 (pyStrip "oops") = none
    ∧ run_grok_search loads0 "PATH" (.completed "oops" "" 3)
      = J.obj [("ok", J.bool false), ("error", J.str "non_json_output"),
          ("raw_stdout", J.str (pyStrip "oops")),
          ("raw_stderr", J.str (pyStrip "")),
          ("returncode", J.num 3)] := by
  refine ⟨rfl, ?_, by decide, rfl, ?_⟩
  · exact (c8_bridge_error_taxonomy loads0 "PATH" "" " " "boom" 2).2.2.2.2.1
      rfl
  · exact (c8_bridge_error_taxonomy loads0 "PATH" "" "oops" "" 3).2.2.2.2.2
      (by decide) rfl

/-- C9: detail truncation.  A body of at most 400 characters is stored
unchanged (shown both for `safe_truncate` itself and for the `detail`
field of the invalid-JSON outcome built from it); a longer body is
stored as its 397-character prefix with the three-character ellipsis
marker `"..."` appended, so the stored detail is truncated to exactly
400 characters and ends in the marker. -/
theorem c9_detail_truncation (v : String) :
    (pyLen v ≤ 400 →
      safe_truncate (some v) 400 = v
      ∧ invalid_json_payload v
        = J.obj [("ok", J.bool false),
            ("error", J.str "invalid_json_response"),
            ("detail", J.str v)])
    ∧ (400 < pyLen v →
      safe_truncate (some v) 400 = pySlice v 397 ++ "..."
      ∧ pyLen (safe_truncate (some v) 400) = 400
      ∧ invalid_json_payload v
        = J.obj [("ok", J.bool false),
            ("error", J.str "invalid_json_response"),
            ("detail", J.str (pySlice v 397 ++ "..."))]) := by
  constructor
  · intro h
    have hs : safe_truncate (some v) 400 = v := by
      by_cases hv : v = ""
      · subst hv; rfl
      · simp [safe_truncate, hv, h]
    exact ⟨hs, by simp [invalid_json_payload, hs]⟩
  · intro h
    have hv : v ≠ "" := by
      intro hv
      rw [hv] at h
      simp [pyLen] at h
    have hs : safe_truncate (some v) 400 = pySlice v 397 ++ "..." := by
      simp [safe_truncate, hv, Nat.not_le.mpr h]
    have hlen : pyLen (safe_truncate (some v) 400) = 400 := by
      rw [hs]
      have h397 : 397 ≤ v.data.length := by
        simp only [pyLen] at h
        omega
      show ((pySlice v 397 ++ "...").data).length = 400
      rw [String.data_append, List.length_append]
      show (v.data.take 397).length + 3 = 400
      rw [List.length_take, Nat.min_eq_left h397]
    exact ⟨hs, hlen, by simp [invalid_json_payload, hs]⟩

/-- C9 witness: a short body is stored unchanged; a 401-character body is
truncated to 400 characters. -/
theorem c9_detail_truncation_witness :
    (pyLen "ab" ≤ 400 ∧ safe_truncate (some "ab") 400 = "ab")
    ∧ (400 < pyLen (String.mk (List.replicate 401 'a'))
       ∧ pyLen (safe_truncate
           (some (String.mk (List.replicate 401 'a'))) 400) = 400) := by
  constructor
  · have h : pyLen "ab" ≤ 400 := by decide
    exact ⟨h, ((c9_detail_truncation "ab").1 h).1⟩
  · have h : 400 < pyLen (String.mk (List.replicate 401 'a')) := by
      show 400 < (List.replicate 401 'a').length
      rw [List.length_replicate]
      omega
    exact ⟨h, ((c9_detail_truncation _).2 h).2.1⟩

/-- C10: the bridge receives the stripped query.  Two accepted queries
that strip to the same string produce identical dispatcher responses for
every bridge function, and with a bridge that echoes its argument the
echoed value is the stripped query, not the raw one. -/
theorem c10_query_stripped (loads : String → Option J) (dumps : J → String)
    (run : String → J) (_id : J) (q1 q2 : String)
    (h : pyStrip q1 = pyStrip q2) (hq : pyStrip q1 ≠ "") :
    handleRpc loads dumps run
        (mkToolsCall _id (J.str "grok_search")
          (some (J.obj [("query", J.str q1)])))
      = handleRpc loads dumps run
        (mkToolsCall _id (J.str "grok_search")
          (some (J.obj [("query", J.str q2)])))
    ∧ handleRpc loads dumps
        (fun s => J.obj [("ok", J.bool true), ("echo", J.str s)])
        (mkToolsCall _id (J.str "grok_search")
          (some (J.obj [("query", J.str q1)])))
      = .ok (Resp.result _id (J.obj [
          ("content", J.arr [J.obj [("type", J.str "text"),
            ("text", J.str (dumps (J.obj [("ok", J.bool true),
              ("echo", J.str (pyStrip q1))])))]]),
          ("isError", J.bool false)])) := by
  constructor
  · rw [handleRpc_query loads dumps run _id q1 hq,
      handleRpc_query loads dumps run _id q2 (h ▸ hq), h]
  · rw [handleRpc_query loads dumps
      (fun s => J.obj [("ok", J.bool true), ("echo", J.str s)]) _id q1 hq]
    rfl

/-- C10 witness: `"  x "` and `"x  "` strip to the same query and
dispatch identically. -/
theorem c10_query_stripped_witness :
    pyStrip "  x " = pyStrip "x  "
    ∧ pyStrip "  x " ≠ ""
    ∧ handleRpc loads0 dumps0 run0
        (mkToolsCall (J.num 1) (J.str "grok_search")
          (some (J.obj [("query", J.str "  x ")])))
      = handleRpc loads0 dumps0 run0
        (mkToolsCall (J.num 1) (J.str "grok_search")
          (some (J.obj [("query", J.str "x  ")]))) := by
  refine ⟨rfl, by decide, ?_⟩
  exact (c10_query_stripped loads0 dumps0 run0 (J.num 1) "  x " "x  "
    rfl (by decide)).1
